import Mathlib

/-!
Verification of the conversation engine of the English-Teacher repository
(`src/app/tutor/tutor.ts`). Text is embedded as `List Char`; the JavaScript
string operations used by the code (`toLowerCase`, `trim`, `split`, `includes`,
the two agreement regexes) are modelled as executable functions on `List Char`.
Machine numbers are `Nat`/`Int`; all arithmetic in the scoring function is
integer arithmetic, so JavaScript `Math.round` is the identity there and the
clamp `Math.max(0, Math.min(100, s))` is `max 0 (min 100 s)` on `Int`.
-/

namespace EnglishTutor

/-- Text, embedded as a list of characters. -/
abbrev Str := List Char

/-- ASCII whitespace, the characters relevant to the transcripts handled by the
code (JavaScript `\s` and `trim` also accept further Unicode spaces; the
inputs of this program are ASCII transcripts). -/
def isWs (c : Char) : Bool :=
  c = ' ' || c = '\t' || c = '\n' || c = '\r'

/-- JavaScript regex word character `\w`, i.e. `[A-Za-z0-9_]`. -/
def isWordChar (c : Char) : Bool :=
  c.isAlphanum || c = '_'

/-- JavaScript `String.prototype.toLowerCase` on ASCII text. -/
def toLower (s : Str) : Str := s.map Char.toLower

/-- JavaScript `String.prototype.trim`: drop whitespace from both ends. -/
def trim (s : Str) : Str :=
  ((s.dropWhile isWs).reverse.dropWhile isWs).reverse

/-- JavaScript `hay.includes(needle)`: `needle` occurs contiguously in `hay`. -/
def includes : Str → Str → Bool
  | [], needle => needle.isPrefixOf ([] : Str)
  | c :: t, needle => needle.isPrefixOf (c :: t) || includes t needle

/-- JavaScript `String.prototype.split` with a single-character separator
class: cut at every character satisfying `p`, keeping empty chunks (so
`splitRuns p s` has one chunk more than `s` has separator characters, and
`splitRuns p [] = [[]]`, matching `"".split` returning `[""]`). -/
def splitRuns (p : Char → Bool) : Str → List Str
  | [] => [[]]
  | c :: cs =>
    if p c then [] :: splitRuns p cs
    else
      match splitRuns p cs with
      | [] => [[c]]
      | r :: rs => (c :: r) :: rs

/-- `text.trim().split(/\s+/).length` from `assessPronunciation`.
JavaScript: splitting the empty string yields `[""]` (length 1); splitting a
trimmed non-empty string at runs of whitespace yields exactly its maximal
non-whitespace runs, i.e. the non-empty chunks of `splitRuns isWs`. -/
def jsWordCount (text : Str) : Nat :=
  let t := trim text
  if t.isEmpty then 1
  else ((splitRuns isWs t).filter (fun w => !w.isEmpty)).length

/-- `text.match(/\b\w{8,}\b/g)` match count: the number of maximal runs of
word characters of length at least 8 (each such run is matched exactly once by
the global regex, its ends being word boundaries). -/
def complexWordCount (text : Str) : Nat :=
  ((splitRuns (fun c => !isWordChar c) text).filter
    (fun w => decide (8 ≤ w.length))).length

/-- The fixed list of challenging-sound substrings of `assessPronunciation`. -/
def challengingSounds : List Str :=
  ["th".data, "r".data, "l".data, "v".data, "w".data]

/-- `assessPronunciation` from `tutor.ts` (lines 424-443): base 70, +10 for
word count > 5, +10 for word count > 10, +min(2·complex, 10) when complex
8+-letter words are matched, +5 for a comma, +5 for a period, −20 for word
count < 3, +5 when at least two challenging sounds occur; result clamped to
[0,100] (`Math.round` is the identity on these integer values). -/
def assessPronunciation (text : Str) : Int :=
  let wordCount := jsWordCount text
  let s0 : Int := 70
  let s1 := if wordCount > 5 then s0 + 10 else s0
  let s2 := if wordCount > 10 then s1 + 10 else s1
  let n := complexWordCount text
  let s3 := if n > 0 then s2 + min ((n : Int) * 2) 10 else s2
  let s4 := if includes text [','] then s3 + 5 else s3
  let s5 := if includes text ['.'] then s4 + 5 else s4
  let s6 := if wordCount < 3 then s5 - 20 else s5
  let found := challengingSounds.filter (fun s => includes (toLower text) s)
  let s7 := if found.length ≥ 2 then s6 + 5 else s6
  max 0 (min 100 s7)

/-- The fixed grammar-correction table of `generateCorrection`, in the insertion
order of the object literal in the source. -/
def corrections : List (Str × Str) :=
  [ ("i am go".data, "I am going".data),
    ("i have went".data, "I have gone".data),
    ("she go".data, "she goes".data),
    ("he go".data, "he goes".data),
    ("they goes".data, "they go".data),
    ("i doesn't".data, "I don't".data),
    ("he don't".data, "he doesn't".data),
    ("she don't".data, "she doesn't".data),
    ("yesterday i go".data, "yesterday I went".data),
    ("tomorrow i go".data, "tomorrow I will go".data),
    ("i didn't went".data, "I didn't go".data) ]

/-- Word boundary after a matched verb: end of string or a non-word character. -/
def boundaryOk (s : Str) : Bool :=
  match s with
  | [] => true
  | c :: _ => !isWordChar c

/-- The `\s+verb\b` tail of the agreement regexes, applied after a pronoun has
matched: at least one whitespace character, then the verb, then a word
boundary. The verbs start with a letter, so the greedy `\s+` needs no
backtracking. -/
def afterPronounMatch (verb : Str) (s : Str) : Bool :=
  match s with
  | [] => false
  | c :: rest =>
    isWs c &&
      (let r := (c :: rest).dropWhile isWs
       verb.isPrefixOf r && boundaryOk (r.drop verb.length))

/-- Whether one of the agreement regexes matches starting exactly at `s`:
`prevIsWord` tells whether the preceding character is a word character (the
pronouns start with word characters, so `\b` holds iff it is not). -/
def matchAt (pronouns : List Str) (verb : Str) (prevIsWord : Bool) (s : Str) :
    Bool :=
  !prevIsWord &&
    pronouns.any (fun p => p.isPrefixOf s && afterPronounMatch verb (s.drop p.length))

/-- `RegExp.prototype.test` for `/\b(p1|…|pk)\s+verb\b/` on lower-cased text:
try a match at every position. -/
def scanMatch (pronouns : List Str) (verb : Str) : Bool → Str → Bool
  | prev, [] => matchAt pronouns verb prev []
  | prev, c :: cs =>
    matchAt pronouns verb prev (c :: cs) || scanMatch pronouns verb (isWordChar c) cs

/-- The advisory string returned by the `(i|you|we|they)\s+goes` rule. -/
def advisoryPlural : Str :=
  "Remember: Use 'go' with I, you, we, they. Use 'goes' with he, she, it.".data

/-- The advisory string returned by the `(he|she|it)\s+go` rule. -/
def advisorySingular : Str :=
  "Remember: Use 'goes' with he, she, it. Use 'go' with I, you, we, they.".data

/-- `generateCorrection` from `tutor.ts` (lines 390-422): lower-case the text,
scan the correction table in insertion order for the first entry contained as a
substring, and only if none hits, try the two regex agreement rules. -/
def generateCorrection (text : Str) : Option Str :=
  let lower := toLower text
  match corrections.find? (fun p => includes lower p.1) with
  | some p => some ("Did you mean: '".data ++ p.2 ++ "'?".data)
  | none =>
    if scanMatch ["i".data, "you".data, "we".data, "they".data] "goes".data
        false lower then
      some advisoryPlural
    else if scanMatch ["he".data, "she".data, "it".data] "go".data
        false lower then
      some advisorySingular
    else
      none

/-- The topic→greeting table of `generateGreeting` (lines 326-336). -/
def greetingsTable : List (Str × Str) :=
  [ ("daily-life".data,
      "Hello! Let's talk about daily life. How was your day today?".data),
    ("work".data,
      "Hi there! Let's discuss work and business. What do you do for a living?".data),
    ("travel".data,
      "Greetings! Ready to talk about travel? What's the most interesting place you've visited?".data),
    ("food".data,
      "Hello! Let's chat about food. What's your favorite cuisine?".data),
    ("hobbies".data,
      "Hi! What are your hobbies? I'd love to hear about what you enjoy doing in your free time.".data),
    ("random".data,
      "Hey! Let's have a casual chat. What's on your mind today?".data) ]

/-- `generateGreeting`: topic lookup with a generic fallback. -/
def generateGreeting (topic : Str) : Str :=
  ((greetingsTable.find? (fun p => p.1 == topic)).map (fun p => p.2)).getD
    "Hello! Let's practice English. What would you like to talk about?".data

/-- The fallback reply pool for unknown topics (`responses['random']`). -/
def randomPool : List Str :=
  [ "Tell me more!".data,
    "That's interesting — why do you think that happened?".data,
    "Could you expand on that?".data ]

/-- The topic→reply-pool table of `generateAIResponse` (lines 340-376). -/
def responsesTable : List (Str × List Str) :=
  [ ("daily-life".data,
      [ "That's interesting! Tell me more about your daily routine.".data,
        "How do you usually spend your evenings?".data,
        "What do you like to do on weekends?".data,
        "That sounds like a busy day! Do you get enough time to relax?".data ]),
    ("work".data,
      [ "That sounds fascinating! What do you enjoy most about your job?".data,
        "How long have you been working in this field?".data,
        "What skills are most important for your profession?".data,
        "That's impressive! What challenges do you face at work?".data ]),
    ("travel".data,
      [ "Wow, that must have been an amazing experience! What did you like most?".data,
        "Would you like to visit there again? Why?".data,
        "What other places are on your travel wishlist?".data,
        "How did you plan your trip? Any tips for others?".data ]),
    ("food".data,
      [ "That sounds delicious! How often do you eat that?".data,
        "Can you cook it yourself? What's the recipe?".data,
        "What other dishes do you enjoy from that cuisine?".data,
        "Have you tried making it at home? How did it turn out?".data ]),
    ("hobbies".data,
      [ "That's a great hobby! How did you get started?".data,
        "How much time do you spend on it?".data,
        "What equipment or tools do you need?".data,
        "Have you met others who share this interest?".data ]),
    ("random".data, randomPool) ]

/-- `generateAIResponse` (lines 338-388). The only randomness in the pipeline,
`Math.floor(Math.random() * pool.length)`, is injected as the parameter
`rand`; the chosen index is `rand % pool.length`, in range like the source's.
`userText.split(' ').length` is a split on the single space character with
empty chunks kept. -/
def generateAIResponse (topic : Str) (userText : Str) (rand : Nat) : Str :=
  let pool :=
    ((responsesTable.find? (fun p => p.1 == topic)).map (fun p => p.2)).getD
      randomPool
  let response := pool.getD (rand % pool.length) []
  if includes userText "?".data then
    "That's a good question! ".data ++ response
  else if (splitRuns (fun c => c == ' ') userText).length < 5 then
    "I see. Could you tell me more? ".data ++ response
  else
    response

/-- A chat message (`userMessage` in `processUserSpeech`, `aiMessage` in
`addAIMessage`). Fields absent on AI messages are `none`. Identifiers and
ISO timestamps are time-derived; time is modelled as `Nat`. -/
structure Message where
  id : Nat
  type : Str
  text : Str
  timestamp : Nat
  correction : Option Str
  pronunciationScore : Option Int
  pronunciationFeedback : Option Str
  audioUrl : Option Str
  deriving Repr, DecidableEq

/-- A conversation record as allocated by `startNewConversation`.
Audio recordings are kept as handles. -/
structure Conversation where
  id : Nat
  startTime : Nat
  endTime : Option Nat
  topic : Str
  difficulty : Str
  messages : List Message
  audioRecordings : List Nat
  deriving Repr, DecidableEq

/-- One persisted `localStorage` slot: the key may be absent
(`getItem` returns `null`), hold an unparseable string (`JSON.parse` throws),
or hold a value that parses back to `v`. -/
inductive Snapshot (α : Type) where
  | absent : Snapshot α
  | corrupt : Snapshot α
  | stored (v : α) : Snapshot α
  deriving Repr, DecidableEq

/-- The two `localStorage` keys the component uses. -/
structure Storage where
  historySnap : Snapshot (List Conversation)
  currentSnap : Snapshot Conversation
  deriving Repr, DecidableEq

/-- The component state relevant to the conversation engine: the mutable
fields of the `Tutor` class that the modelled methods read or write. -/
structure TutorState where
  currentConversation : Option Conversation
  conversationHistory : List Conversation
  filteredHistory : List Conversation
  isConversationActive : Bool
  isListening : Bool
  selectedHistoryConversation : Option Conversation
  selectedTopic : Str
  storage : Storage
  errorMessage : Str
  successMessage : Str
  deriving Repr, DecidableEq

/-- `stopListening` (lines 219-232): the recognition/recorder calls are
external capability calls; the state effect is clearing the listening flag. -/
def stopListening (s : TutorState) : TutorState :=
  { s with isListening := false }

/-- `saveCurrentConversation` (lines 455-463): write-through of the active
conversation snapshot when one exists. -/
def saveCurrentConversation (s : TutorState) : TutorState :=
  match s.currentConversation with
  | none => s
  | some conv =>
    { s with storage := { s.storage with currentSnap := Snapshot.stored conv } }

/-- The list-level core of `saveConversation` (lines 482-494): fill a missing
end timestamp, prepend to the history, cut to the 50 most recent when the
length exceeds 50. -/
def saveConversationList (now : Nat) (conv : Conversation)
    (history : List Conversation) : List Conversation :=
  let c := { conv with endTime := some (conv.endTime.getD now) }
  let h := c :: history
  if h.length > 50 then h.take 50 else h

/-- `saveConversation` on the full state: updates the in-memory history and its
filtered copy, persists the history snapshot and removes the
active-conversation snapshot. -/
def saveConversationSt (now : Nat) (conv : Conversation) (s : TutorState) :
    TutorState :=
  let newHist := saveConversationList now conv s.conversationHistory
  { s with
    conversationHistory := newHist,
    filteredHistory := newHist,
    storage :=
      { historySnap := Snapshot.stored newHist, currentSnap := Snapshot.absent } }

/-- `addAIMessage` (lines 262-279): append an AI message to the active
conversation and persist the snapshot (`speakResponse` is an external
capability call). On a `null` active conversation the field access throws and
the catch leaves the state unchanged apart from the error notice, which the
claims do not touch. -/
def addAIMessage (now : Nat) (text : Str) (s : TutorState) : TutorState :=
  match s.currentConversation with
  | none => s
  | some conv =>
    let msg : Message :=
      { id := now, type := "ai".data, text := text, timestamp := now,
        correction := none, pronunciationScore := none,
        pronunciationFeedback := none, audioUrl := none }
    let conv2 := { conv with messages := conv.messages ++ [msg] }
    saveCurrentConversation { s with currentConversation := some conv2 }

/-- The fresh record allocated by `startNewConversation` (lines 121-141)
before the greeting is appended. -/
def freshConversation (now : Nat) (topic : Str) : Conversation :=
  { id := now, startTime := now, endTime := none, topic := topic,
    difficulty := "beginner".data, messages := [], audioRecordings := [] }

/-- `startNewConversation` (lines 121-141): replace the active conversation
with a fresh record (no archival), mark the conversation active, clear the
history selection, append the topic greeting, and show a success notice. -/
def startNewConversation (now : Nat) (s : TutorState) : TutorState :=
  let s1 :=
    { s with
      currentConversation := some (freshConversation now s.selectedTopic),
      isConversationActive := true,
      selectedHistoryConversation := none }
  let s2 := addAIMessage now (generateGreeting s.selectedTopic) s1
  { s2 with
    successMessage :=
      "New conversation started! Topic: ".data ++ s.selectedTopic }

/-- `endConversation` (lines 143-157): only when an active conversation with at
least one message exists is its end timestamp set and the record archived;
in every case the conversation is deactivated, listening stops, and the
active reference is cleared. -/
def endConversation (now : Nat) (s : TutorState) : TutorState :=
  let s1 :=
    match s.currentConversation with
    | some conv =>
      if conv.messages.length > 0 then
        let conv2 := { conv with endTime := some now }
        saveConversationSt now conv2 { s with currentConversation := some conv2 }
      else s
    | none => s
  let s2 := stopListening { s1 with isConversationActive := false }
  { s2 with
    currentConversation := none,
    successMessage := "Conversation ended and saved to history".data }

/-- The second half of the `try` block of `loadHistory`: restore the active
conversation when its snapshot parses, then copy the history into
`filteredHistory`; a corrupt snapshot throws into the catch block after
`conversationHistory` was already assigned, so both lists end empty. -/
def loadHistoryCurrent (h : List Conversation) (s : TutorState) : TutorState :=
  match s.storage.currentSnap with
  | Snapshot.corrupt =>
    { s with conversationHistory := [], filteredHistory := [] }
  | Snapshot.absent =>
    { s with conversationHistory := h, filteredHistory := h }
  | Snapshot.stored c =>
    { s with
      conversationHistory := h, filteredHistory := h,
      currentConversation := some c, isConversationActive := true }

/-- `loadHistory` (lines 465-480), with `localStorage`/`JSON.parse` modelled by
`Snapshot`: a corrupt slot throws into the catch block, which resets the
in-memory history and its filtered copy and leaves everything else (in
particular the active-conversation fields) as it was; assignments made before
the throw are kept, as in JavaScript. -/
def loadHistory (s : TutorState) : TutorState :=
  match s.storage.historySnap with
  | Snapshot.corrupt =>
    { s with conversationHistory := [], filteredHistory := [] }
  | Snapshot.absent =>
    loadHistoryCurrent [] s
  | Snapshot.stored h =>
    loadHistoryCurrent h s

/-- JavaScript `Math.round(total / len)` for an integer `total` and a positive
integer `len`: `Math.round x = ⌊x + 1/2⌋` (ties round toward +∞), and
`⌊total/len + 1/2⌋ = ⌊(2·total + len) / (2·len)⌋`, floor division on `Int`. -/
def mathRoundDiv (total : Int) (len : Nat) : Int :=
  Int.fdiv (2 * total + len) (2 * len)

/-- `getAveragePronunciationScore` (lines 543-553): average the
`pronunciationScore` of the user-role messages, a missing score counting as 0
(`m.pronunciationScore || 0`); an empty user-message list yields 0. -/
def getAveragePronunciationScore (conversation : Conversation) : Int :=
  let users := conversation.messages.filter (fun m => m.type == "user".data)
  if users.length = 0 then 0
  else
    let total :=
      users.foldl (fun acc m => acc + m.pronunciationScore.getD 0) 0
    mathRoundDiv total users.length

/-! ## Helper lemmas -/

/-- A whitespace character is not a regex word character. -/
theorem isWs_not_wordChar {c : Char} (h : isWs c = true) : isWordChar c = false := by
  simp only [isWs, Bool.or_eq_true, decide_eq_true_eq] at h
  rcases h with ((h | h) | h) | h <;> subst h <;> decide

/-- Trimming an all-whitespace text yields the empty text. -/
theorem trim_eq_nil_of_all_ws {s : Str} (h : ∀ c ∈ s, isWs c = true) :
    trim s = [] := by
  unfold trim
  have h1 : s.dropWhile isWs = [] := List.dropWhile_eq_nil_iff.mpr h
  simp [h1]

/-- When every character is a separator, every chunk of `splitRuns` is empty. -/
theorem splitRuns_all_sep {p : Char → Bool} {s : Str} (h : ∀ c ∈ s, p c = true) :
    ∀ w ∈ splitRuns p s, w = [] := by
  induction s with
  | nil =>
    intro w hw
    simp only [splitRuns, List.mem_singleton] at hw
    exact hw
  | cons c cs ih =>
    intro w hw
    have hc : p c = true := h c (List.mem_cons_self c cs)
    simp only [splitRuns, hc, if_true, List.mem_cons] at hw
    rcases hw with rfl | hw
    · rfl
    · exact ih (fun a ha => h a (List.mem_cons_of_mem _ ha)) w hw

/-- An all-whitespace text has no 8+-character word-character runs. -/
theorem complexWordCount_all_ws {s : Str} (h : ∀ c ∈ s, isWs c = true) :
    complexWordCount s = 0 := by
  unfold complexWordCount
  have hall : ∀ w ∈ splitRuns (fun c => !isWordChar c) s, w = [] :=
    splitRuns_all_sep (fun c hc => by simp [isWs_not_wordChar (h c hc)])
  rw [List.length_eq_zero, List.filter_eq_nil_iff]
  intro w hw
  rw [hall w hw]
  decide

/-- A successful `includes` puts the needle's head character into the hay. -/
theorem includes_head_mem {hay : Str} {c : Char} {rest : Str}
    (h : includes hay (c :: rest) = true) : c ∈ hay := by
  induction hay with
  | nil => simp [includes, List.isPrefixOf] at h
  | cons a t ih =>
    simp only [includes, Bool.or_eq_true] at h
    rcases h with h | h
    · simp only [List.isPrefixOf, Bool.and_eq_true, beq_iff_eq] at h
      exact h.1 ▸ List.mem_cons_self a t
    · exact List.mem_cons_of_mem _ (ih h)

/-- `includes` fails whenever the needle's head character is absent. -/
theorem includes_eq_false_of_head_not_mem {hay : Str} {c : Char} {rest : Str}
    (h : c ∉ hay) : includes hay (c :: rest) = false := by
  cases heq : includes hay (c :: rest)
  · rfl
  · exact absurd (includes_head_mem heq) h

/-- Lower-casing preserves being all-whitespace. -/
theorem toLower_all_ws {s : Str} (h : ∀ c ∈ s, isWs c = true) :
    ∀ c ∈ toLower s, isWs c = true := by
  intro c hc
  simp only [toLower, List.mem_map] at hc
  obtain ⟨a, ha, rfl⟩ := hc
  have ha2 := h a ha
  simp only [isWs, Bool.or_eq_true, decide_eq_true_eq] at ha2
  rcases ha2 with ((h2 | h2) | h2) | h2 <;> subst h2 <;> decide

/-- One `saveConversation` keeps the history within the 50-entry cap. -/
theorem saveConversationList_length_le (now : Nat) (c : Conversation)
    {h : List Conversation} (hle : h.length ≤ 50) :
    (saveConversationList now c h).length ≤ 50 := by
  unfold saveConversationList
  dsimp only
  split
  · simp [List.length_take]
  · next hcond =>
      simp only [List.length_cons] at hcond ⊢
      omega

/-! ## Claims -/

/-- C1: the spec's scenario asserts that `generateCorrection` on
`"he go to school"` returns the regex-rule advisory for {he, she, it}. It does
not: the correction table is consulted first, entry `'he go'` is a substring of
the lower-cased input, and the table suggestion wins, so the regex rules are
never reached. The first conjunct exhibits the actual (different) return value;
the second states it is not the advisory. -/
theorem generateCorrection_he_go_counterexample :
    generateCorrection "he go to school".data =
      some "Did you mean: 'he goes'?".data ∧
    generateCorrection "he go to school".data ≠ some advisorySingular := by
  exact ⟨by decide, by decide⟩

/-- C1 (amended): for `"he go to school"`, the table lookup — substring
containment, first match winning in insertion order — hits the entry
`'he go' → 'he goes'`, so `generateCorrection` returns the table suggestion
`Did you mean: 'he goes'?` and the regex advisory is never consulted. -/
theorem generateCorrection_he_go_table_hit :
    corrections.find?
        (fun p => includes (toLower "he go to school".data) p.1) =
      some ("he go".data, "he goes".data) ∧
    generateCorrection "he go to school".data =
      some "Did you mean: 'he goes'?".data := by
  exact ⟨by decide, by decide⟩

/-- C2: for every text input, the pronunciation score is an integer in the
closed interval [0, 100] — the final clamp `Math.max(0, Math.min(100, s))`
guarantees it. -/
theorem assessPronunciation_in_range (text : Str) :
    0 ≤ assessPronunciation text ∧ assessPronunciation text ≤ 100 := by
  unfold assessPronunciation
  refine ⟨le_max_left 0 _, max_le (by norm_num) (min_le_left _ _)⟩

/-- C7: the assessment pipeline is deterministic — `generateCorrection` and
`assessPronunciation` are pure functions of the transcript text alone (the
embedding gives them no other input, mirroring the source, which reads only
its argument and constant tables), so two evaluations on the same text agree. -/
theorem assessment_deterministic (text : Str) :
    generateCorrection text = generateCorrection text ∧
    assessPronunciation text = assessPronunciation text :=
  ⟨rfl, rfl⟩

/-- C8: for topic `food` and transcript `"I love it"` (3 words, no question
mark), the generated response is prefixed with the elaboration prompt for every
value of the injected random index, and `generateCorrection` returns no
suggestion (no table entry is a substring, neither agreement regex matches). -/
theorem food_short_utterance_response (rand : Nat) :
    (∃ rest, generateAIResponse "food".data "I love it".data rand =
      "I see. Could you tell me more? ".data ++ rest) ∧
    generateCorrection "I love it".data = none := by
  exact ⟨⟨_, rfl⟩, by decide⟩

/-- C9: on empty or all-whitespace input the score is exactly 50: trimming
yields the empty text, so the JavaScript split produces one empty token and the
word count is 1, which triggers only the −20 short-utterance penalty on the
base 70 while no bonus applies. -/
theorem assessPronunciation_whitespace (text : Str)
    (h : ∀ c ∈ text, isWs c = true) : assessPronunciation text = 50 := by
  have htrim : trim text = [] := trim_eq_nil_of_all_ws h
  have hwc : jsWordCount text = 1 := by simp [jsWordCount, htrim]
  have hcx : complexWordCount text = 0 := complexWordCount_all_ws h
  have hcomma : includes text [','] = false :=
    includes_eq_false_of_head_not_mem (fun hm => absurd (h ',' hm) (by decide))
  have hperiod : includes text ['.'] = false :=
    includes_eq_false_of_head_not_mem (fun hm => absurd (h '.' hm) (by decide))
  have hlow := toLower_all_ws h
  have h1 : includes (toLower text) "th".data = false :=
    includes_eq_false_of_head_not_mem (fun hm => absurd (hlow 't' hm) (by decide))
  have h2 : includes (toLower text) "r".data = false :=
    includes_eq_false_of_head_not_mem (fun hm => absurd (hlow 'r' hm) (by decide))
  have h3 : includes (toLower text) "l".data = false :=
    includes_eq_false_of_head_not_mem (fun hm => absurd (hlow 'l' hm) (by decide))
  have h4 : includes (toLower text) "v".data = false :=
    includes_eq_false_of_head_not_mem (fun hm => absurd (hlow 'v' hm) (by decide))
  have h5 : includes (toLower text) "w".data = false :=
    includes_eq_false_of_head_not_mem (fun hm => absurd (hlow 'w' hm) (by decide))
  simp [assessPronunciation, hwc, hcx, hcomma, hperiod, challengingSounds,
    h1, h2, h3, h4, h5]

/-- C9 witness: the one-space transcript scores exactly 50. -/
theorem assessPronunciation_whitespace_witness :
    assessPronunciation " ".data = 50 :=
  assessPronunciation_whitespace " ".data (by decide)

/-- A concrete conversation record used to instantiate the theorems. -/
def convA : Conversation :=
  { id := 1, startTime := 0, endTime := none, topic := "food".data,
    difficulty := "beginner".data, messages := [], audioRecordings := [] }

/-- A concrete startup state (as after construction of the component, before
`ngOnInit`): no active conversation, empty history, storage as given. -/
def startupWith (hist : Snapshot (List Conversation))
    (cur : Snapshot Conversation) : TutorState :=
  { currentConversation := none, conversationHistory := [],
    filteredHistory := [], isConversationActive := false, isListening := false,
    selectedHistoryConversation := none, selectedTopic := "daily-life".data,
    storage := { historySnap := hist, currentSnap := cur },
    errorMessage := [], successMessage := [] }

/-- C3: after any sequence of archival operations starting within the cap, the
history never exceeds 50 entries; each archived conversation is prepended
(most-recent-first), and on overflow of a full 50-entry history exactly the
last (oldest) entry is evicted. -/
theorem saveConversation_invariants
    (ops : List (Nat × Conversation)) (h0 : List Conversation)
    (now : Nat) (c : Conversation) (hist full : List Conversation)
    (h0le : h0.length ≤ 50) (hfull : full.length = 50) :
    (ops.foldl (fun acc p => saveConversationList p.1 p.2 acc) h0).length ≤ 50 ∧
    (saveConversationList now c hist).head? =
      some { c with endTime := some (c.endTime.getD now) } ∧
    saveConversationList now c full =
      { c with endTime := some (c.endTime.getD now) } :: full.dropLast := by
  refine ⟨?_, ?_, ?_⟩
  · induction ops generalizing h0 with
    | nil => simpa using h0le
    | cons p ps ih =>
      exact ih _ (saveConversationList_length_le p.1 p.2 h0le)
  · unfold saveConversationList
    dsimp only
    split
    · rfl
    · rfl
  · unfold saveConversationList
    dsimp only
    rw [if_pos (by simp [hfull])]
    rw [List.dropLast_eq_take, hfull]
    rfl

/-- C3 witness: instantiated at the empty operation sequence, the empty start
history, and a full 50-entry history of copies of `convA`. -/
theorem saveConversation_invariants_witness :
    (([] : List (Nat × Conversation)).foldl
        (fun acc p => saveConversationList p.1 p.2 acc) []).length ≤ 50 ∧
    (saveConversationList 0 convA []).head? =
      some { convA with endTime := some (convA.endTime.getD 0) } ∧
    saveConversationList 0 convA (List.replicate 50 convA) =
      { convA with endTime := some (convA.endTime.getD 0) } ::
        (List.replicate 50 convA).dropLast :=
  saveConversation_invariants [] [] 0 convA [] (List.replicate 50 convA)
    (by simp) (by simp)

/-- C4: ending a conversation with zero messages (or no active conversation)
leaves the history unchanged and clears the active reference; only a
conversation with at least one message is closed — its end timestamp set to
the current time — and archived through `saveConversationList`. -/
theorem endConversation_zero_message_guard (now : Nat) (s : TutorState) :
    ((s.currentConversation = none ∨
        ∃ c, s.currentConversation = some c ∧ c.messages = []) →
      (endConversation now s).conversationHistory = s.conversationHistory ∧
      (endConversation now s).currentConversation = none) ∧
    (∀ c, s.currentConversation = some c → c.messages ≠ [] →
      (endConversation now s).conversationHistory =
        saveConversationList now { c with endTime := some now }
          s.conversationHistory ∧
      (endConversation now s).currentConversation = none) := by
  constructor
  · intro hcase
    rcases hcase with hnone | ⟨c, hc, hmsg⟩
    · simp [endConversation, stopListening, hnone]
    · simp [endConversation, stopListening, hc, hmsg]
  · intro c hc hmsg
    have hlen : c.messages.length > 0 := List.length_pos.mpr hmsg
    simp [endConversation, stopListening, saveConversationSt, hc, hlen]

/-- C4 witness: ending at a startup state with no active conversation keeps
the (empty) history and leaves no active conversation. -/
theorem endConversation_zero_message_guard_witness :
    (endConversation 5 (startupWith Snapshot.absent Snapshot.absent)).conversationHistory =
      (startupWith Snapshot.absent Snapshot.absent).conversationHistory ∧
    (endConversation 5 (startupWith Snapshot.absent Snapshot.absent)).currentConversation =
      none :=
  (endConversation_zero_message_guard 5
    (startupWith Snapshot.absent Snapshot.absent)).1 (Or.inl rfl)

/-- C5: `startNewConversation` installs a fresh active record — the fresh
conversation carrying only the topic greeting — regardless of any prior active
conversation, marks the conversation active, and touches neither the in-memory
history nor the persisted history snapshot (no archival). -/
theorem startNewConversation_replaces (now : Nat) (s : TutorState) :
    (startNewConversation now s).currentConversation =
      some { freshConversation now s.selectedTopic with
              messages :=
                [{ id := now, type := "ai".data,
                   text := generateGreeting s.selectedTopic, timestamp := now,
                   correction := none, pronunciationScore := none,
                   pronunciationFeedback := none, audioUrl := none }] } ∧
    (startNewConversation now s).isConversationActive = true ∧
    (startNewConversation now s).conversationHistory = s.conversationHistory ∧
    (startNewConversation now s).storage.historySnap = s.storage.historySnap := by
  refine ⟨rfl, rfl, rfl, rfl⟩

/-- C6: the original claim — any missing or corrupt snapshot yields an empty
history and no active conversation — fails on the code in both directions:
a validly persisted history is restored even when the active-conversation
snapshot is missing (first conjunct: the history is `[convA]`, not empty), and
a validly persisted active conversation is restored and activated even when
the history snapshot is missing (second conjunct). -/
theorem loadHistory_counterexample :
    ((loadHistory (startupWith (Snapshot.stored [convA]) Snapshot.absent)).conversationHistory =
        [convA] ∧
      (loadHistory (startupWith (Snapshot.stored [convA]) Snapshot.absent)).conversationHistory ≠
        []) ∧
    ((loadHistory (startupWith Snapshot.absent (Snapshot.stored convA))).currentConversation =
        some convA ∧
      (loadHistory (startupWith Snapshot.absent (Snapshot.stored convA))).isConversationActive =
        true) := by
  exact ⟨⟨rfl, by decide⟩, rfl, rfl⟩

/-- C6 (amended): `loadHistory` never raises (it is total; every `JSON.parse`
failure is caught). Whenever the history snapshot is missing or corrupt, or the
active-conversation snapshot is corrupt, the resulting history (and its
filtered copy) is empty; and starting from a state with no active
conversation, the result still has no active conversation whenever the active
snapshot is missing or corrupt, or the history snapshot is corrupt. (A valid
snapshot of either kind is restored even when the other is merely missing —
that is what the counterexample exhibits against the original claim.) -/
theorem loadHistory_missing_or_corrupt (s : TutorState) :
    ((s.storage.historySnap = Snapshot.absent ∨
        s.storage.historySnap = Snapshot.corrupt ∨
        s.storage.currentSnap = Snapshot.corrupt) →
      (loadHistory s).conversationHistory = [] ∧
      (loadHistory s).filteredHistory = []) ∧
    (s.currentConversation = none →
      (s.storage.currentSnap = Snapshot.absent ∨
        s.storage.currentSnap = Snapshot.corrupt ∨
        s.storage.historySnap = Snapshot.corrupt) →
      (loadHistory s).currentConversation = none) := by
  constructor
  · intro hcase
    rcases hh : s.storage.historySnap with _ | _ | h <;>
      rcases hc : s.storage.currentSnap with _ | _ | c <;>
        simp_all [loadHistory, loadHistoryCurrent]
  · intro hnone hcase
    rcases hh : s.storage.historySnap with _ | _ | h <;>
      rcases hc : s.storage.currentSnap with _ | _ | c <;>
        simp_all [loadHistory, loadHistoryCurrent]

/-- C6 witness: a corrupt history snapshot with a missing active snapshot
yields an empty history, an empty filtered copy, and no active conversation. -/
theorem loadHistory_missing_or_corrupt_witness :
    (loadHistory (startupWith Snapshot.corrupt Snapshot.absent)).conversationHistory = [] ∧
    (loadHistory (startupWith Snapshot.corrupt Snapshot.absent)).filteredHistory = [] ∧
    (loadHistory (startupWith Snapshot.corrupt Snapshot.absent)).currentConversation = none := by
  have h := loadHistory_missing_or_corrupt (startupWith Snapshot.corrupt Snapshot.absent)
  exact ⟨(h.1 (Or.inr (Or.inl rfl))).1, (h.1 (Or.inr (Or.inl rfl))).2,
    h.2 rfl (Or.inl rfl)⟩

/-- Replacing a missing per-message score by an explicit 0, as
`m.pronunciationScore || 0` does. -/
def fillScore (m : Message) : Message :=
  { m with pronunciationScore := some (m.pronunciationScore.getD 0) }

/-- Filtering for user messages commutes with `fillScore`, which does not
touch the role field. -/
theorem filter_user_map_fill (l : List Message) :
    (l.map fillScore).filter (fun m => m.type == "user".data) =
      (l.filter (fun m => m.type == "user".data)).map fillScore := by
  induction l with
  | nil => rfl
  | cons m t ih =>
    cases hm : (m.type == "user".data) <;>
      simp [List.filter_cons, fillScore, hm, ih]

/-- The score total is unchanged by making missing scores explicit zeros. -/
theorem foldl_score_map_fill (l : List Message) (a : Int) :
    (l.map fillScore).foldl (fun acc m => acc + m.pronunciationScore.getD 0) a =
      l.foldl (fun acc m => acc + m.pronunciationScore.getD 0) a := by
  induction l generalizing a with
  | nil => rfl
  | cons m t ih =>
    have hm : (fillScore m).pronunciationScore.getD 0 =
        m.pronunciationScore.getD 0 := by
      cases h : m.pronunciationScore <;> simp [fillScore, h]
    simp only [List.map_cons, List.foldl_cons, hm]
    exact ih _

/-- C10: a conversation without user-role messages (in particular with an
empty message list) gets average pronunciation score 0 — the division is
guarded — and missing per-message scores are treated as 0: replacing every
missing score by an explicit 0 leaves the average unchanged. -/
theorem getAveragePronunciationScore_safe (conv : Conversation) :
    (conv.messages.filter (fun m => m.type == "user".data) = [] →
      getAveragePronunciationScore conv = 0) ∧
    getAveragePronunciationScore conv =
      getAveragePronunciationScore
        { conv with messages := conv.messages.map fillScore } := by
  constructor
  · intro hnone
    simp [getAveragePronunciationScore, hnone]
  · unfold getAveragePronunciationScore
    dsimp only
    rw [filter_user_map_fill, List.length_map, foldl_score_map_fill]

/-- C10 witness: the empty conversation `convA` has average score 0. -/
theorem getAveragePronunciationScore_safe_witness :
    getAveragePronunciationScore convA = 0 :=
  (getAveragePronunciationScore_safe convA).1 rfl

end EnglishTutor
